import Mathlib

/-!
Verification development for `scratch/dgw/tst_new_reflection_manager.py`.

The script under verification is a linear comparison harness: it builds synthetic
experimental models, perturbs and restores parameter vectors, generates synthetic
reflection observations, feeds them to an old and a new refinement pipeline, sorts
both result sets by the `x_resid` key and asserts approximate equality of the
positional-residual gradients element by element.

Embedding conventions:
* Python float values are embedded as exact rationals (`ℚ`) throughout the
  comparison logic; the two assertions about the synthetic scan involve `π` and are
  embedded over `ℝ`.
* The large crystallographic library the script calls (model construction,
  prediction, reflection management, gradient computation) is not part of the file
  under src/; its outputs are treated as opaque inputs (fields of `ScriptEnv`,
  arguments of the observation-assignment functions), and the few library contracts
  the claims depend on are modelled from the spec where marked.
* Python exceptions are embedded with `Except`: a failed `assert` statement becomes
  `Failure.assertionError line`, an out-of-range sequence access becomes
  `Failure.indexError line`, where `line` is the source line number.
-/

namespace TstRefman

/-- Failure signals the script can terminate with: a failed `assert` statement or an
out-of-range sequence access, tagged with the source line it arises from. -/
inductive Failure where
  | assertionError (line : ℕ)
  | indexError (line : ℕ)
deriving DecidableEq

/-- The text printed by line 364 on success. -/
def okMsg : String := "OK"

instance : DecidableEq (Except Failure String) := fun x y =>
  match x, y with
  | .error e, .error f =>
    if h : e = f then isTrue (by rw [h]) else isFalse (fun c => h (Except.error.inj c))
  | .error _, .ok _ => isFalse (fun c => Except.noConfusion c)
  | .ok _, .error _ => isFalse (fun c => Except.noConfusion c)
  | .ok a, .ok b =>
    if h : a = b then isTrue (by rw [h]) else isFalse (fun c => h (Except.ok.inj c))

/-- Python sequence access `l[i]`: the element when `i` is in range, an `IndexError`
(tagged with the source line `site`) otherwise. -/
def listGet {α : Type} (site : ℕ) (l : List α) (i : ℕ) : Except Failure α :=
  match l[i]? with
  | some a => Except.ok a
  | none => Except.error (Failure.indexError site)

/-- A Python `for` loop whose body may raise: runs the body on each element in order,
stopping at the first failure. -/
def exForM {α : Type} (f : α → Except Failure Unit) : List α → Except Failure Unit
  | [] => Except.ok ()
  | a :: l => Except.bind (f a) fun _ => exForM f l

/-- A Python loop collecting one result per element, stopping at the first failure. -/
def exMapM {α β : Type} (f : α → Except Failure β) : List α → Except Failure (List β)
  | [] => Except.ok []
  | a :: l =>
    Except.bind (f a) fun b => Except.bind (exMapM f l) fun bs => Except.ok (b :: bs)

/-- `libtbx.test_utils.approx_equal` at its default tolerance `1e-6`, on the rational
embedding of float values: the absolute difference is at most the tolerance. -/
def approx_equal (a b : ℚ) : Prop := |a - b| ≤ 1e-6

instance (a b : ℚ) : Decidable (approx_equal a b) :=
  inferInstanceAs (Decidable (_ ≤ _))

/-- `libtbx.test_utils.approx_equal` at its default tolerance `1e-6`, on real values. -/
def approx_equalR (a b : ℝ) : Prop := |a - b| ≤ 1e-6

/-! ### The synthetic scan (script lines 87-97)

`scan_factory.make_scan(image_range=(1,1800), exposure_times=0.1,
oscillation=(0, 0.1), epochs=range(1800), deg=True)` builds a rotation scan; the
script then reads its oscillation range and per-image width in radians. -/

/-- Modelled from the spec: the dxtbx scan object built by `scan_factory.make_scan`
(dxtbx is not under src/). A scan covers the images `imageRange.1 .. imageRange.2`;
the rotation starts at `oscStartDeg` degrees and each image covers `oscWidthDeg`
degrees of rotation. -/
structure ScanModel where
  imageRange : ℤ × ℤ
  oscStartDeg : ℝ
  oscWidthDeg : ℝ

/-- Number of images of the scan (both ends of `image_range` inclusive). -/
def ScanModel.numImages (s : ScanModel) : ℤ := s.imageRange.2 - s.imageRange.1 + 1

/-- Degrees-to-radians conversion used when a dxtbx accessor is called with
`deg=False`. -/
noncomputable def degToRad (x : ℝ) : ℝ := x * Real.pi / 180

/-- Modelled from the spec: `Scan.get_oscillation(deg=False)` (dxtbx, not under src/)
returns the pair (oscillation start, per-image oscillation width) in radians. -/
noncomputable def ScanModel.get_oscillation (s : ScanModel) : ℝ × ℝ :=
  (degToRad s.oscStartDeg, degToRad s.oscWidthDeg)

/-- Modelled from the spec: `Scan.get_oscillation_range(deg=False)` (dxtbx, not under
src/) returns the total rotation range of the scan in radians, from the oscillation
start to the start plus the number of images times the per-image width. -/
noncomputable def ScanModel.get_oscillation_range (s : ScanModel) : ℝ × ℝ :=
  (degToRad s.oscStartDeg,
   degToRad (s.oscStartDeg + (s.numImages : ℝ) * s.oscWidthDeg))

/-- `myscan` of script lines 87-92: image range (1, 1800), oscillation (0, 0.1) in
degrees. -/
def myscan : ScanModel := ⟨(1, 1800), 0, 0.1⟩

/-- `sweep_range = myscan.get_oscillation_range(deg=False)` (line 93). -/
noncomputable def sweep_range : ℝ × ℝ := myscan.get_oscillation_range

/-- `temp = myscan.get_oscillation(deg=False); im_width = temp[1] - temp[0]`
(lines 94-95). -/
noncomputable def im_width : ℝ := myscan.get_oscillation.2 - myscan.get_oscillation.1

/-! ### Parameterisations and the perturb/restore phases (script lines 114-168 and
251-256) -/

/-- Modelled from the spec: a model parameterisation wrapper (the dials
parameterisation classes are not under src/) "exposes a numeric parameter vector
with get/set; mutation of the vector mutates the underlying model in place". Only
the parameter vector itself matters to the claims, so the wrapper state is the
vector. -/
structure Parameterisation where
  vals : List ℚ

/-- `get_param_vals` returns the current parameter vector. -/
def Parameterisation.get_param_vals (p : Parameterisation) : List ℚ := p.vals

/-- `set_param_vals` replaces the current parameter vector. -/
def Parameterisation.set_param_vals (_ : Parameterisation) (v : List ℚ) :
    Parameterisation := ⟨v⟩

/-- The fixed detector offsets of line 137: 2.0 mm on each translation, 5 mrad on
each rotation. -/
def detOffsets : List ℚ := [2, 2, 2, 5, 5, 5]

/-- Line 136: `p_vals = [a + b for a, b in zip(det_p_vals, [2.0, 2.0, 2.0, 5., 5., 5.])]`. -/
def perturbDetVals (v : List ℚ) : List ℚ := List.zipWith (· + ·) v detOffsets

/-- Lines 142-143: `p_vals = list(s0_p_vals); p_vals[0] += 2.` (the beam orientation
vector has 2 added to its first free element). -/
def perturbBeamVals : List ℚ → List ℚ
  | [] => []
  | a :: rest => (a + 2) :: rest

/-- The fixed crystal-orientation offsets of line 151: 2 mrad on each rotation. -/
def xloOffsets : List ℚ := [2, 2, 2]

/-- Line 151: `new_p_vals = [a + b for a, b in zip(p_vals, [2., 2., 2.])]`. -/
def perturbXloVals (v : List ℚ) : List ℚ := List.zipWith (· + ·) v xloOffsets

/-- The six parameterisation wrappers built in lines 114-125. -/
structure Models where
  det : Parameterisation
  s0 : Parameterisation
  xl1o : Parameterisation
  xl2o : Parameterisation
  xl1uc : Parameterisation
  xl2uc : Parameterisation

/-- The original parameter vectors the script keeps while perturbing
(`det_p_vals`, `s0_p_vals`, `xlo_p_vals`, `xluc_p_vals`). -/
structure SavedVals where
  det_p_vals : List ℚ
  s0_p_vals : List ℚ
  xlo_p_vals : List (List ℚ)
  xluc_p_vals : List (List ℚ)

/-- Script lines 134-168: read each parameter vector, remember it, and set the
perturbed values. The two unit-cell parameter vectors are computed through
`symmetrize_reduce_enlarge` from the perturbed unit cell (external cctbx code);
those computed vectors enter here as the opaque inputs `ucNew1`, `ucNew2`. -/
def perturbPhase (m : Models) (ucNew1 ucNew2 : List ℚ) : Models × SavedVals :=
  let det_p_vals := m.det.get_param_vals
  let det := m.det.set_param_vals (perturbDetVals det_p_vals)
  let s0_p_vals := m.s0.get_param_vals
  let s0 := m.s0.set_param_vals (perturbBeamVals s0_p_vals)
  let p1 := m.xl1o.get_param_vals
  let xl1o := m.xl1o.set_param_vals (perturbXloVals p1)
  let p2 := m.xl2o.get_param_vals
  let xl2o := m.xl2o.set_param_vals (perturbXloVals p2)
  let q1 := m.xl1uc.get_param_vals
  let xl1uc := m.xl1uc.set_param_vals ucNew1
  let q2 := m.xl2uc.get_param_vals
  let xl2uc := m.xl2uc.set_param_vals ucNew2
  (⟨det, s0, xl1o, xl2o, xl1uc, xl2uc⟩, ⟨det_p_vals, s0_p_vals, [p1, p2], [q1, q2]⟩)

/-- Script lines 251-256: set every parameter vector back to the remembered
original values. -/
def restorePhase (m : Models) (s : SavedVals) : Models :=
  let s0 := m.s0.set_param_vals s.s0_p_vals
  let det := m.det.set_param_vals s.det_p_vals
  let xl1o := m.xl1o.set_param_vals (s.xlo_p_vals.getD 0 [])
  let xl2o := m.xl2o.set_param_vals (s.xlo_p_vals.getD 1 [])
  let xl1uc := m.xl1uc.set_param_vals (s.xluc_p_vals.getD 0 [])
  let xl2uc := m.xl2uc.set_param_vals (s.xluc_p_vals.getD 1 [])
  ⟨det, s0, xl1o, xl2o, xl1uc, xl2uc⟩

/-! ### Synthetic observations (script lines 201-245) -/

/-- A reflection record as used by the observation loops: the prediction fields
(`miller_index`, `image_coord_mm`, `rotation_angle`) are produced by the library's
ray prediction and ray intersection, the remaining fields are the ones the loops
assign. -/
structure RayRef where
  miller_index : ℤ × ℤ × ℤ
  image_coord_mm : ℚ × ℚ
  rotation_angle : ℚ
  centroid_position : ℚ × ℚ × ℚ
  centroid_variance : ℚ × ℚ × ℚ
  frame_number : ℚ
  crystal : ℕ
deriving DecidableEq

/-- A default reflection record (used as the out-of-range default of `List.getD`). -/
def defaultRayRef : RayRef := ⟨(0, 0, 0), (0, 0), 0, (0, 0, 0), (0, 0, 0), 0, 0⟩

/-- Line 204: `var_x = (px_size[0] / 2.)**2`. -/
def mkVarX (px_size : ℚ × ℚ) : ℚ := (px_size.1 / 2) ^ 2

/-- Line 205: `var_y = (px_size[1] / 2.)**2`. -/
def mkVarY (px_size : ℚ × ℚ) : ℚ := (px_size.2 / 2) ^ 2

/-- Line 206: `var_phi = (im_width / 2.)**2`. -/
def mkVarPhi (imWidthVal : ℚ) : ℚ := (imWidthVal / 2) ^ 2

/-- The body of the loops of lines 211-239: set the observed centroid to the
detector intersection extended by the rotation angle, set the shared centroid
variance, set the frame number computed from the rotation angle by the scan
(`get_image_index_from_angle`, entering as the opaque function `frameOf`), and set
the crystal number. -/
def setObs (vx vy vphi : ℚ) (frameOf : ℚ → ℚ) (c : ℕ) (r : RayRef) : RayRef :=
  { r with
    centroid_position := (r.image_coord_mm.1, r.image_coord_mm.2, r.rotation_angle)
    centroid_variance := (vx, vy, vphi)
    frame_number := frameOf r.rotation_angle
    crystal := c }

/-- One observation loop (lines 211-224 for crystal 0, lines 226-239 for
crystal 1), applied to a whole reflection list. -/
def processRefs (px_size : ℚ × ℚ) (imWidthVal : ℚ) (frameOf : ℚ → ℚ) (c : ℕ)
    (l : List RayRef) : List RayRef :=
  l.map (setObs (mkVarX px_size) (mkVarY px_size) (mkVarPhi imWidthVal) frameOf c)

/-- Line 245: `obs_refs = obs_refs1.concatenate(obs_refs2)`. -/
def concatenateRefs (l1 l2 : List RayRef) : List RayRef := l1 ++ l2

/-! ### The deepcopy frame property (script lines 262-298)

`reflections` is mutated in place by the new pipeline; mutation in place is
embedded as updating the `reflections` component of the state, and
`copy.deepcopy` as binding an independent copy of the value, which is exactly the
aliasing barrier deepcopy provides. -/

/-- The two reflection-table bindings of lines 262-264: `reflections` and its deep
copy `old_reflections`. -/
structure PipelineState (α : Type) where
  reflections : α
  old_reflections : α

/-- Lines 262-264: after `old_reflections = deepcopy(reflections)` the two bindings
hold independent equal values. -/
def afterDeepcopy {α : Type} (reflections : α) : PipelineState α :=
  ⟨reflections, reflections⟩

/-- One step of the new pipeline (manager construction, predict, finalise, gradient
calculation): it receives `reflections` and may mutate it arbitrarily
(`mutate` is the opaque library behaviour), while `old_reflections` is not passed
to it. -/
def runNewPipelineStep {α : Type} (mutate : α → α) (s : PipelineState α) :
    PipelineState α :=
  ⟨mutate s.reflections, s.old_reflections⟩

/-! ### The comparison tail of the script (lines 93-108 and 262-365)

The outputs of the library pipelines (the match tables of the two reflection
managers and the gradient arrays of `calculate_gradients`) are opaque inputs,
collected in `ScriptEnv` together with the values the early assertions inspect. -/

/-- A row of the new reflection manager's match table (`refman.get_matches()`):
only the columns the script reads appear. -/
structure NewRow where
  x_resid : ℚ
  miller_index : ℤ × ℤ × ℤ
deriving DecidableEq

/-- A matched observation of the old reflection manager (`old_refman.get_matches()`):
`x_resid`, `miller_index` and the per-parameter gradient 3-vectors
`(dX/dp, dY/dp, dPhi/dp)`. -/
structure OldRow where
  x_resid : ℚ
  miller_index : ℤ × ℤ × ℤ
  gradients : List (ℚ × ℚ × ℚ)
deriving DecidableEq

/-- A row of the new match table after line 308 added the `order` column. -/
structure TRow where
  x_resid : ℚ
  miller_index : ℤ × ℤ × ℤ
  order : ℕ
deriving DecidableEq

/-- Default row for out-of-range `List.getD`. -/
def defaultNewRow : NewRow := ⟨0, (0, 0, 0)⟩

/-- Default row for out-of-range `List.getD`. -/
def defaultOldRow : OldRow := ⟨0, (0, 0, 0), []⟩

/-- Default row for out-of-range `List.getD`. -/
def defaultTRow : TRow := ⟨0, (0, 0, 0), 0⟩

/-- The sort key of line 340: ascending `x_resid`. -/
def leNewRow (a b : TRow) : Prop := a.x_resid ≤ b.x_resid

instance : DecidableRel leNewRow :=
  fun a b => inferInstanceAs (Decidable (a.x_resid ≤ b.x_resid))

instance : IsTotal TRow leNewRow := ⟨fun a b => le_total a.x_resid b.x_resid⟩

instance : IsTrans TRow leNewRow := ⟨fun _ _ _ h h2 => le_trans h h2⟩

/-- The sort key of line 346: ascending `x_resid` (`sorted(old_matches,
key=lambda e: e.x_resid)`). -/
def leOldRow (a b : OldRow) : Prop := a.x_resid ≤ b.x_resid

instance : DecidableRel leOldRow :=
  fun a b => inferInstanceAs (Decidable (a.x_resid ≤ b.x_resid))

instance : IsTotal OldRow leOldRow := ⟨fun a b => le_total a.x_resid b.x_resid⟩

instance : IsTrans OldRow leOldRow := ⟨fun _ _ _ h h2 => le_trans h h2⟩

/-- Line 308: `new_matches['order'] = flex.size_t_range(len(new_matches))` — each
row, paired with its position, starting at position `k`. -/
def withOrderFrom (k : ℕ) : List NewRow → List TRow
  | [] => []
  | r :: rs => ⟨r.x_resid, r.miller_index, k⟩ :: withOrderFrom (k + 1) rs

/-- The new match table with its `order` column (line 308). -/
def withOrder (l : List NewRow) : List TRow := withOrderFrom 0 l

/-- The opaque library outputs the comparison tail consumes, together with the
values inspected by the early assertions:
`sweep_range` and `im_width` are the float values read from the scan in lines
93-95, `piVal` is the value of `math.pi`, `numDetectors` is
`len(experiments.detectors())`, `new_matches` is the match table of
`refman.get_matches()` after `finalise`, the three gradient lists are the result of
`new_target.calculate_gradients()` (one array per free parameter), and
`old_matches` is the match list of the old reflection manager after
`old_target.predict()`. -/
structure ScriptEnv where
  sweep_range : ℚ × ℚ
  im_width : ℚ
  piVal : ℚ
  numDetectors : ℕ
  new_matches : List NewRow
  dX_dp : List (List ℚ)
  dY_dp : List (List ℚ)
  dPhi_dp : List (List ℚ)
  old_matches : List OldRow

/-- Line 340: `new_matches.sort('x_resid')`, modelled from the spec as a stable
ascending sort by the key (the dials reflection-table sort is not under src/). -/
def sortedNewRows (env : ScriptEnv) : List TRow :=
  List.insertionSort leNewRow (withOrder env.new_matches)

/-- Line 346: `old_matches = sorted(old_matches, key=lambda e: e.x_resid)`
(Python's stable ascending sort by key). -/
def sortedOldRows (env : ScriptEnv) : List OldRow :=
  List.insertionSort leOldRow env.old_matches

/-- The `order` column of the sorted new match table (the permutation applied to
the gradient arrays in lines 342-345). -/
def ordCol (env : ScriptEnv) : List ℕ := (sortedNewRows env).map TRow.order

/-- `flex_array.select(indices)`: the elements at the given indices, an
`IndexError` (tagged with line `site`) on an out-of-range index. -/
def selectE (site : ℕ) (arr : List ℚ) : List ℕ → Except Failure (List ℚ)
  | [] => Except.ok []
  | k :: ks =>
    Except.bind (listGet site arr k) fun v =>
    Except.bind (selectE site arr ks) fun vs => Except.ok (v :: vs)

/-- One iteration of the loop of lines 342-345: select the rows of the three
gradient arrays of parameter `i` by the sorted `order` column. -/
def selectRow (env : ScriptEnv) (ord : List ℕ) (i : ℕ) :
    Except Failure (List ℚ × List ℚ × List ℚ) :=
  Except.bind (listGet 343 env.dX_dp i) fun x =>
  Except.bind (selectE 343 x ord) fun xs =>
  Except.bind (listGet 344 env.dY_dp i) fun y =>
  Except.bind (selectE 344 y ord) fun ys =>
  Except.bind (listGet 345 env.dPhi_dp i) fun z =>
  Except.bind (selectE 345 z ord) fun zs =>
  Except.ok (xs, ys, zs)

/-- The loop of lines 342-345 over every free parameter. -/
def selectPhase (env : ScriptEnv) :
    Except Failure (List (List ℚ × List ℚ × List ℚ)) :=
  exMapM (selectRow env (ordCol env)) (List.range env.dX_dp.length)

/-- The value `dX_dp[i].select(order)` takes for parameter `j` (and likewise Y and
Phi): each gradient array permuted by the sorted `order` column. -/
def canonicalSel (env : ScriptEnv) (j : ℕ) : List ℚ × List ℚ × List ℚ :=
  ((ordCol env).map fun k => (env.dX_dp.getD j []).getD k 0,
   (ordCol env).map fun k => (env.dY_dp.getD j []).getD k 0,
   (ordCol env).map fun k => (env.dPhi_dp.getD j []).getD k 0)

/-- The debug print of lines 348-349: for the first ten rows it reads
`new_matches[i]`, `dX_dp[0][i]`, `dY_dp[0][i]`, `dPhi_dp[0][i]`, `old_matches[i]`
and `old_matches[i].gradients[0]`; each read can raise an IndexError. -/
def printBody (env : ScriptEnv) (sel : List (List ℚ × List ℚ × List ℚ)) (i : ℕ) :
    Except Failure Unit :=
  Except.bind (listGet 349 (sortedNewRows env) i) fun _ =>
  Except.bind (listGet 349 sel 0) fun t0 =>
  Except.bind (listGet 349 t0.1 i) fun _ =>
  Except.bind (listGet 349 t0.2.1 i) fun _ =>
  Except.bind (listGet 349 t0.2.2 i) fun _ =>
  Except.bind (listGet 349 (sortedOldRows env) i) fun om =>
  Except.bind (listGet 349 om.gradients 0) fun _ =>
  Except.ok ()

/-- Lines 348-349: `for i in range(10): print ...`. -/
def printPhase (env : ScriptEnv) (sel : List (List ℚ × List ℚ × List ℚ)) :
    Except Failure Unit :=
  exForM (printBody env sel) (List.range 10)

/-- The body of the test loop of lines 357-361 at reflection `i` and parameter `j`:
read `dX_dp[j][i]` and `old_matches[i].gradients[j]`, assert approximate equality
of the X components, then likewise Y (line 360) and Phi (line 361). -/
def testBody (env : ScriptEnv) (sel : List (List ℚ × List ℚ × List ℚ)) (i j : ℕ) :
    Except Failure Unit :=
  Except.bind (listGet 359 sel j) fun tj =>
  Except.bind (listGet 359 tj.1 i) fun xji =>
  Except.bind (listGet 359 (sortedOldRows env) i) fun om =>
  Except.bind (listGet 359 om.gradients j) fun g =>
  if approx_equal xji g.1 then
    Except.bind (listGet 360 tj.2.1 i) fun yji =>
    if approx_equal yji g.2.1 then
      Except.bind (listGet 361 tj.2.2 i) fun zji =>
      if approx_equal zji g.2.2 then Except.ok ()
      else Except.error (Failure.assertionError 361)
    else Except.error (Failure.assertionError 360)
  else Except.error (Failure.assertionError 359)

/-- Lines 355-361: `for i in range(len(new_matches)): for j in range(len(dX_dp)):
assert ...`. -/
def testPhase (env : ScriptEnv) (sel : List (List ℚ × List ℚ × List ℚ)) :
    Except Failure Unit :=
  exForM
    (fun i => exForM (testBody env sel i) (List.range env.dX_dp.length))
    (List.range (sortedNewRows env).length)

/-- The script up to and including the printing of the two match counts (lines
96-97 and 108 asserts, then the accesses `dX_dp[0]`, `dY_dp[0]`, `dPhi_dp[0]` of
lines 309-311; the count prints of lines 300 and 336 inspect nothing and assert
nothing). -/
def stage1 (env : ScriptEnv) : Except Failure Unit :=
  if env.sweep_range = ((0 : ℚ), env.piVal) then
    if approx_equal env.im_width (0.1 * env.piVal / 180) then
      if env.numDetectors = 1 then
        Except.bind (listGet 309 env.dX_dp 0) fun _ =>
        Except.bind (listGet 310 env.dY_dp 0) fun _ =>
        Except.bind (listGet 311 env.dPhi_dp 0) fun _ =>
        Except.ok ()
      else Except.error (Failure.assertionError 108)
    else Except.error (Failure.assertionError 97)
  else Except.error (Failure.assertionError 96)

/-- The comparison tail of the script after the counts are printed: sort, permute
the gradient arrays, debug-print the first ten rows, run the assertion loop, print
"OK" (lines 340-364). -/
def scriptTail (env : ScriptEnv) : Except Failure String :=
  Except.bind (selectPhase env) fun sel =>
  Except.bind (printPhase env sel) fun _ =>
  Except.bind (testPhase env sel) fun _ =>
  Except.ok okMsg

/-- The whole checked behaviour of the script over the opaque library outputs:
either the printed "OK", or the first failure. -/
def scriptRun (env : ScriptEnv) : Except Failure String :=
  Except.bind (stage1 env) fun _ => scriptTail env

/-- The gradient value the script compares at sorted row `i`, parameter `j`, X
component: `dX_dp[j]` (as returned by `calculate_gradients`) at the original
position `order` of the reflection sorted into row `i`. -/
def gXs (env : ScriptEnv) (j i : ℕ) : ℚ :=
  (env.dX_dp.getD j []).getD (((sortedNewRows env).getD i defaultTRow).order) 0

/-- As `gXs`, Y component. -/
def gYs (env : ScriptEnv) (j i : ℕ) : ℚ :=
  (env.dY_dp.getD j []).getD (((sortedNewRows env).getD i defaultTRow).order) 0

/-- As `gXs`, Phi component. -/
def gPhis (env : ScriptEnv) (j i : ℕ) : ℚ :=
  (env.dPhi_dp.getD j []).getD (((sortedNewRows env).getD i defaultTRow).order) 0

/-- `old_matches[i].gradients[j]` after the sort of line 346. -/
def oldGrad (env : ScriptEnv) (i j : ℕ) : ℚ × ℚ × ℚ :=
  ((sortedOldRows env).getD i defaultOldRow).gradients.getD j (0, 0, 0)

/-- The conditions of the three early assertions (lines 96, 97 and 108): the sweep
range is exactly `(0, pi)`, the image width is approximately `0.1 * pi / 180`, and
the experiments share a single detector. -/
def EarlyChecks (env : ScriptEnv) : Prop :=
  env.sweep_range = ((0 : ℚ), env.piVal) ∧
  approx_equal env.im_width (0.1 * env.piVal / 180) ∧
  env.numDetectors = 1

/-- The conditions of the assertions of lines 359-361: for every sorted reflection
row and every free parameter, the three gradient components of the new pipeline
approximately equal those of the old pipeline. -/
def GradChecks (env : ScriptEnv) : Prop :=
  ∀ i j, i < (sortedNewRows env).length → j < env.dX_dp.length →
    approx_equal (gXs env j i) (oldGrad env i j).1 ∧
    approx_equal (gYs env j i) (oldGrad env i j).2.1 ∧
    approx_equal (gPhis env j i) (oldGrad env i j).2.2

/-- All conditions checked by an `assert` statement of the script. -/
def Checks (env : ScriptEnv) : Prop := EarlyChecks env ∧ GradChecks env

/-! ### Concrete environments used as witnesses and counterexamples -/

/-- Ten identical new-match rows. -/
def tenNewRows : List NewRow := List.replicate 10 ⟨0, (0, 0, 0)⟩

/-- Ten identical old matches, each with the gradients of a single parameter. -/
def tenOldRows : List OldRow := List.replicate 10 ⟨0, (0, 0, 0), [(0, 0, 0)]⟩

/-- A well-formed environment on which the whole script succeeds: ten matches on
both sides, one free parameter, all residuals and gradients zero. -/
def okEnv : ScriptEnv :=
  ⟨(0, 3), 1/600, 3, 1, tenNewRows,
   [List.replicate 10 0], [List.replicate 10 0], [List.replicate 10 0], tenOldRows⟩

/-- An environment in which every checked condition holds and yet the script fails:
the old manager returned no matches, so the debug print of line 349 reads
`old_matches[0]` out of range. -/
def exEnv : ScriptEnv :=
  ⟨(0, 3), 1/600, 3, 1, tenNewRows,
   [List.replicate 10 0], [List.replicate 10 0], [List.replicate 10 0], []⟩

/-- An environment in which the two managers return different match counts (one
against zero): the count-producing part of the script does not fail on it. -/
def diffCountEnv : ScriptEnv :=
  ⟨(0, 3), 1/600, 3, 1, [⟨0, (0, 0, 0)⟩], [[0]], [[0]], [[0]], []⟩

/-! ## Basic inversion lemmas for the embedded control flow -/

theorem except_bind_ok {α β : Type} {x : Except Failure α} {f : α → Except Failure β}
    {b : β} :
    Except.bind x f = Except.ok b ↔ ∃ a, x = Except.ok a ∧ f a = Except.ok b := by
  cases x <;> simp [Except.bind]

theorem except_bind_error {α β : Type} {x : Except Failure α} {f : α → Except Failure β}
    {e : Failure} :
    Except.bind x f = Except.error e ↔
      x = Except.error e ∨ ∃ a, x = Except.ok a ∧ f a = Except.error e := by
  cases x <;> simp [Except.bind]

theorem listGet_ok {α : Type} {site : ℕ} {l : List α} {i : ℕ} {a : α} :
    listGet site l i = Except.ok a ↔ l[i]? = some a := by
  unfold listGet
  cases h : l[i]? <;> simp

theorem listGet_error {α : Type} {site : ℕ} {l : List α} {i : ℕ} {e : Failure}
    (h : listGet site l i = Except.error e) : e = Failure.indexError site := by
  unfold listGet at h
  cases hl : l[i]? <;> rw [hl] at h
  · exact (Except.error.inj h).symm
  · exact absurd h (by simp)

theorem getD_of_mem {α : Type} {l : List α} {i : ℕ} {a : α} (d : α)
    (h : l[i]? = some a) : l.getD i d = a := by
  rw [List.getD_eq_getElem?_getD, h]; rfl

theorem getD_eq_getElem {α : Type} {l : List α} {i : ℕ} (d : α) (h : i < l.length) :
    l.getD i d = l[i] := by
  rw [List.getD_eq_getElem?_getD, List.getElem?_eq_getElem h]; rfl

theorem listGet_ok_getD {α : Type} (site : ℕ) {l : List α} {i : ℕ} (d : α)
    (h : i < l.length) : listGet site l i = Except.ok (l.getD i d) := by
  rw [listGet_ok, List.getElem?_eq_getElem h, getD_eq_getElem d h]

theorem exForM_ok {α : Type} {f : α → Except Failure Unit} {l : List α} :
    exForM f l = Except.ok () ↔ ∀ a ∈ l, f a = Except.ok () := by
  induction l with
  | nil => simp [exForM]
  | cons a l ih =>
    rw [exForM, except_bind_ok]
    constructor
    · rintro ⟨u, hu, h⟩ b hb
      rcases List.mem_cons.mp hb with rfl | hb
      · cases u; exact hu
      · exact ih.mp h b hb
    · intro h
      exact ⟨(), h a (List.mem_cons_self a l),
        ih.mpr fun b hb => h b (List.mem_cons_of_mem a hb)⟩

theorem exForM_error {α : Type} {f : α → Except Failure Unit} {l : List α}
    {e : Failure} (h : exForM f l = Except.error e) : ∃ a ∈ l, f a = Except.error e := by
  induction l with
  | nil => rw [exForM] at h; exact absurd h (by simp)
  | cons a l ih =>
    rw [exForM, except_bind_error] at h
    rcases h with h | ⟨u, _, h⟩
    · exact ⟨a, List.mem_cons_self a l, h⟩
    · rcases ih h with ⟨b, hb, hfb⟩
      exact ⟨b, List.mem_cons_of_mem a hb, hfb⟩

theorem exMapM_ok_map {α β : Type} {f : α → Except Failure β} {g : α → β}
    {l : List α} {out : List β} (h : exMapM f l = Except.ok out)
    (hg : ∀ a ∈ l, ∀ b, f a = Except.ok b → b = g a) : out = l.map g := by
  induction l generalizing out with
  | nil =>
    rw [exMapM] at h
    injection h with h2
    rw [← h2]; rfl
  | cons a l ih =>
    rw [exMapM, except_bind_ok] at h
    rcases h with ⟨b, hb, h⟩
    rw [except_bind_ok] at h
    rcases h with ⟨bs, hbs, h⟩
    injection h with h2
    rw [← h2, List.map_cons, hg a (List.mem_cons_self a l) b hb,
      ih hbs fun x hx c hc => hg x (List.mem_cons_of_mem a hx) c hc]

theorem exMapM_error {α β : Type} {f : α → Except Failure β} {l : List α}
    {e : Failure} (h : exMapM f l = Except.error e) : ∃ a ∈ l, f a = Except.error e := by
  induction l with
  | nil => rw [exMapM] at h; exact absurd h (by simp)
  | cons a l ih =>
    rw [exMapM, except_bind_error] at h
    rcases h with h | ⟨b, _, h⟩
    · exact ⟨a, List.mem_cons_self a l, h⟩
    · rw [except_bind_error] at h
      rcases h with h | ⟨bs, _, h⟩
      · rcases ih h with ⟨c, hc, hfc⟩
        exact ⟨c, List.mem_cons_of_mem a hc, hfc⟩
      · exact absurd h (by simp)

/-! ## Claim C3: the synthetic scan -/

/-- Claim C3: the oscillation sweep range of the constructed scan (1800 images of
0.1 degrees oscillation starting at 0) equals exactly the pair `(0, π)` in
radians, and the per-image angular width equals `0.1 * π / 180` within the
approx_equal tolerance. -/
theorem C3_scan_sweep_range :
    sweep_range = ((0 : ℝ), Real.pi) ∧ approx_equalR im_width (0.1 * Real.pi / 180) := by
  constructor
  · unfold sweep_range ScanModel.get_oscillation_range ScanModel.numImages degToRad myscan
    norm_num
  · unfold approx_equalR im_width ScanModel.get_oscillation degToRad myscan
    ring_nf
    norm_num

/-! ## Claim C4: perturb then restore is the identity on parameter vectors -/

/-- Claim C4: for every parameterisation (detector, beam orientation, both crystal
orientations, both crystal unit cells), after the perturbation phase and the
restore phase `get_param_vals` returns exactly the vector it returned before the
perturbation was applied. -/
theorem C4_perturb_restore_identity (m : Models) (ucNew1 ucNew2 : List ℚ) :
    (restorePhase (perturbPhase m ucNew1 ucNew2).1
        (perturbPhase m ucNew1 ucNew2).2).det.get_param_vals = m.det.get_param_vals ∧
    (restorePhase (perturbPhase m ucNew1 ucNew2).1
        (perturbPhase m ucNew1 ucNew2).2).s0.get_param_vals = m.s0.get_param_vals ∧
    (restorePhase (perturbPhase m ucNew1 ucNew2).1
        (perturbPhase m ucNew1 ucNew2).2).xl1o.get_param_vals = m.xl1o.get_param_vals ∧
    (restorePhase (perturbPhase m ucNew1 ucNew2).1
        (perturbPhase m ucNew1 ucNew2).2).xl2o.get_param_vals = m.xl2o.get_param_vals ∧
    (restorePhase (perturbPhase m ucNew1 ucNew2).1
        (perturbPhase m ucNew1 ucNew2).2).xl1uc.get_param_vals = m.xl1uc.get_param_vals ∧
    (restorePhase (perturbPhase m ucNew1 ucNew2).1
        (perturbPhase m ucNew1 ucNew2).2).xl2uc.get_param_vals = m.xl2uc.get_param_vals :=
  ⟨rfl, rfl, rfl, rfl, rfl, rfl⟩

/-! ## Claim C7: the perturbations are fixed additive offsets -/

/-- Claim C7: the perturbation applied to every parameter vector is a fixed
additive offset: the detector vector is shifted element-wise by
(2, 2, 2, 5, 5, 5), the beam orientation vector has 2 added to its first (free)
element only, and each crystal orientation vector is shifted element-wise by
(2, 2, 2). -/
theorem C7_fixed_additive_offsets (a b c d e f p x y z : ℚ) (rest : List ℚ) :
    perturbDetVals [a, b, c, d, e, f] = [a + 2, b + 2, c + 2, d + 5, e + 5, f + 5] ∧
    perturbBeamVals (p :: rest) = (p + 2) :: rest ∧
    perturbXloVals [x, y, z] = [x + 2, y + 2, z + 2] :=
  ⟨rfl, rfl, rfl⟩

/-! ## Claim C8: the synthetic observation fields -/

theorem processRefs_getD (px_size : ℚ × ℚ) (imWidthVal : ℚ) (frameOf : ℚ → ℚ)
    (c : ℕ) (l : List RayRef) {i : ℕ} (hi : i < l.length) :
    (processRefs px_size imWidthVal frameOf c l).getD i defaultRayRef =
      setObs (mkVarX px_size) (mkVarY px_size) (mkVarPhi imWidthVal) frameOf c
        (l.getD i defaultRayRef) := by
  rw [processRefs, getD_eq_getElem _ (by simpa using hi), List.getElem_map,
    getD_eq_getElem _ hi]

/-- Claim C8: for every predicted reflection, after ray intersection the synthetic
observation fields are: `centroid_position` is the detector intersection extended
by the rotation angle, `centroid_variance` is
`((px/2)^2, (py/2)^2, (im_width/2)^2)` and identical for all reflections, and
`frame_number` is the scan image index computed from the rotation angle. -/
theorem C8_observation_fields (px_size : ℚ × ℚ) (imWidthVal : ℚ) (frameOf : ℚ → ℚ)
    (c : ℕ) (l : List RayRef) (i i2 : ℕ) (hi : i < l.length) (hi2 : i2 < l.length) :
    ((processRefs px_size imWidthVal frameOf c l).getD i defaultRayRef).centroid_position =
      ((l.getD i defaultRayRef).image_coord_mm.1,
       (l.getD i defaultRayRef).image_coord_mm.2,
       (l.getD i defaultRayRef).rotation_angle) ∧
    ((processRefs px_size imWidthVal frameOf c l).getD i defaultRayRef).centroid_variance =
      ((px_size.1 / 2) ^ 2, (px_size.2 / 2) ^ 2, (imWidthVal / 2) ^ 2) ∧
    ((processRefs px_size imWidthVal frameOf c l).getD i defaultRayRef).frame_number =
      frameOf ((l.getD i defaultRayRef).rotation_angle) ∧
    ((processRefs px_size imWidthVal frameOf c l).getD i defaultRayRef).centroid_variance =
      ((processRefs px_size imWidthVal frameOf c l).getD i2 defaultRayRef).centroid_variance := by
  rw [processRefs_getD px_size imWidthVal frameOf c l hi,
    processRefs_getD px_size imWidthVal frameOf c l hi2]
  exact ⟨rfl, rfl, rfl, rfl⟩

/-- Witness for C8 at a concrete one-element reflection list. -/
theorem C8_observation_fields_witness :
    0 < ([defaultRayRef] : List RayRef).length ∧
    ((processRefs (1, 1) 1 (fun w => w) 0 [defaultRayRef]).getD 0
        defaultRayRef).centroid_variance =
      (((1 : ℚ) / 2) ^ 2, ((1 : ℚ) / 2) ^ 2, ((1 : ℚ) / 2) ^ 2) :=
  ⟨by norm_num,
    (C8_observation_fields (1, 1) 1 (fun w => w) 0 [defaultRayRef] 0 0
      (by norm_num) (by norm_num)).2.1⟩

/-! ## Claim C9: the deep copy isolates the old pipeline's input -/

/-- Claim C9: `old_reflections` is a deep copy taken before the new pipeline runs,
so no step of the new pipeline (each mutating the `reflections` value it is given)
changes `old_reflections`. -/
theorem C9_deepcopy_isolates (α : Type) (t : α) (m1 m2 m3 m4 : α → α) :
    (runNewPipelineStep m4 (runNewPipelineStep m3 (runNewPipelineStep m2
      (runNewPipelineStep m1 (afterDeepcopy t))))).old_reflections = t := rfl

/-! ## Claim C10: crystal identifiers in the concatenated list -/

theorem processRefs_crystal (px_size : ℚ × ℚ) (imWidthVal : ℚ) (frameOf : ℚ → ℚ)
    (c : ℕ) (l : List RayRef) {i : ℕ} (hi : i < l.length) :
    ((processRefs px_size imWidthVal frameOf c l).getD i defaultRayRef).crystal = c := by
  rw [processRefs_getD px_size imWidthVal frameOf c l hi]; rfl

/-- Claim C10: in the concatenated observation list, every record coming from
crystal 1's predictions carries crystal identifier 0 and every record coming from
crystal 2's predictions carries crystal identifier 1: the first `len(obs_refs1)`
positions hold 0, the remaining positions hold 1. -/
theorem C10_crystal_labels (px_size : ℚ × ℚ) (imWidthVal : ℚ) (frameOf : ℚ → ℚ)
    (l1 l2 : List RayRef) (i : ℕ) (hi : i < l1.length + l2.length) :
    ((concatenateRefs (processRefs px_size imWidthVal frameOf 0 l1)
        (processRefs px_size imWidthVal frameOf 1 l2)).getD i defaultRayRef).crystal =
      if i < l1.length then 0 else 1 := by
  have len1 : (processRefs px_size imWidthVal frameOf 0 l1).length = l1.length := by
    simp [processRefs]
  by_cases h : i < l1.length
  · rw [if_pos h, concatenateRefs,
      List.getD_append _ _ _ _ (by rw [len1]; exact h)]
    exact processRefs_crystal px_size imWidthVal frameOf 0 l1 h
  · rw [if_neg h, concatenateRefs,
      List.getD_append_right _ _ _ _ (by rw [len1]; omega), len1]
    exact processRefs_crystal px_size imWidthVal frameOf 1 l2 (by omega)

/-- Witness for C10 at a concrete pair of one-element lists. -/
theorem C10_crystal_labels_witness :
    1 < ([defaultRayRef] : List RayRef).length + ([defaultRayRef] : List RayRef).length ∧
    ((concatenateRefs (processRefs (1, 1) 1 (fun w => w) 0 [defaultRayRef])
        (processRefs (1, 1) 1 (fun w => w) 1 [defaultRayRef])).getD 1
        defaultRayRef).crystal =
      if 1 < ([defaultRayRef] : List RayRef).length then 0 else 1 :=
  ⟨by norm_num,
    C10_crystal_labels (1, 1) 1 (fun w => w) [defaultRayRef] [defaultRayRef] 1
      (by norm_num)⟩

/-! ## Structure of the order-annotated and sorted tables -/

theorem length_withOrderFrom (k : ℕ) (l : List NewRow) :
    (withOrderFrom k l).length = l.length := by
  induction l generalizing k with
  | nil => rfl
  | cons r rs ih => simp [withOrderFrom, ih]

theorem length_withOrder (l : List NewRow) : (withOrder l).length = l.length :=
  length_withOrderFrom 0 l

theorem withOrderFrom_getElem? (k : ℕ) (l : List NewRow) (i : ℕ) :
    (withOrderFrom k l)[i]? =
      l[i]?.map fun r => (⟨r.x_resid, r.miller_index, k + i⟩ : TRow) := by
  induction l generalizing k i with
  | nil => simp [withOrderFrom]
  | cons r rs ih =>
    cases i with
    | zero => simp [withOrderFrom]
    | succ n =>
      rw [withOrderFrom]
      simp only [List.getElem?_cons_succ]
      rw [ih (k + 1) n]
      simp only [show k + 1 + n = k + (n + 1) from by omega]

theorem length_sortedNewRows (env : ScriptEnv) :
    (sortedNewRows env).length = env.new_matches.length := by
  rw [sortedNewRows, List.length_insertionSort, length_withOrder]

theorem withOrder_getElem? (l : List NewRow) {i : ℕ} (hi : i < l.length) :
    (withOrder l)[i]? =
      some (⟨(l.getD i defaultNewRow).x_resid, (l.getD i defaultNewRow).miller_index, i⟩ :
        TRow) := by
  rw [withOrder, withOrderFrom_getElem?, List.getElem?_eq_getElem hi, Option.map_some',
    getD_eq_getElem defaultNewRow hi]
  simp

theorem sortedNewRows_order_points_back (env : ScriptEnv) {i : ℕ}
    (hi : i < (sortedNewRows env).length) :
    ((sortedNewRows env).getD i defaultTRow).order < env.new_matches.length ∧
    ((sortedNewRows env).getD i defaultTRow).x_resid =
      (env.new_matches.getD ((sortedNewRows env).getD i defaultTRow).order
        defaultNewRow).x_resid := by
  have hmem : (sortedNewRows env).getD i defaultTRow ∈ withOrder env.new_matches := by
    rw [getD_eq_getElem defaultTRow hi]
    exact (List.perm_insertionSort leNewRow (withOrder env.new_matches)).subset
      (List.getElem_mem hi)
  rcases List.mem_iff_getElem.mp hmem with ⟨k, hk, hkeq⟩
  have hk2 : k < env.new_matches.length := by rwa [length_withOrder] at hk
  have heq : (withOrder env.new_matches)[k] =
      (⟨(env.new_matches.getD k defaultNewRow).x_resid,
        (env.new_matches.getD k defaultNewRow).miller_index, k⟩ : TRow) := by
    have h2 := withOrder_getElem? env.new_matches hk2
    rw [List.getElem?_eq_getElem hk] at h2
    exact Option.some.inj h2
  rw [← hkeq, heq]
  exact ⟨hk2, rfl⟩

theorem ordCol_getElem? {env : ScriptEnv} {i : ℕ}
    (hi : i < (sortedNewRows env).length) :
    (ordCol env)[i]? = some (((sortedNewRows env).getD i defaultTRow).order) := by
  rw [ordCol, List.getElem?_map, List.getElem?_eq_getElem hi, Option.map_some',
    getD_eq_getElem defaultTRow hi]

theorem canonical_fst_getElem? {env : ScriptEnv} (j : ℕ) {i : ℕ}
    (hi : i < (sortedNewRows env).length) :
    (canonicalSel env j).1[i]? = some (gXs env j i) := by
  show ((ordCol env).map fun k => (env.dX_dp.getD j []).getD k 0)[i]? = _
  rw [List.getElem?_map, ordCol_getElem? hi, Option.map_some']
  rfl

theorem canonical_snd_getElem? {env : ScriptEnv} (j : ℕ) {i : ℕ}
    (hi : i < (sortedNewRows env).length) :
    (canonicalSel env j).2.1[i]? = some (gYs env j i) := by
  show ((ordCol env).map fun k => (env.dY_dp.getD j []).getD k 0)[i]? = _
  rw [List.getElem?_map, ordCol_getElem? hi, Option.map_some']
  rfl

theorem canonical_thd_getElem? {env : ScriptEnv} (j : ℕ) {i : ℕ}
    (hi : i < (sortedNewRows env).length) :
    (canonicalSel env j).2.2[i]? = some (gPhis env j i) := by
  show ((ordCol env).map fun k => (env.dPhi_dp.getD j []).getD k 0)[i]? = _
  rw [List.getElem?_map, ordCol_getElem? hi, Option.map_some']
  rfl

/-! ## Inversion of the select, print and test phases -/

theorem selectE_ok {site : ℕ} {arr : List ℚ} {ks : List ℕ} {out : List ℚ}
    (h : selectE site arr ks = Except.ok out) :
    out = ks.map fun k => arr.getD k 0 := by
  induction ks generalizing out with
  | nil =>
    rw [selectE] at h
    injection h with h2
    rw [← h2]; rfl
  | cons k ks ih =>
    rw [selectE, except_bind_ok] at h
    rcases h with ⟨v, hv, h⟩
    rw [except_bind_ok] at h
    rcases h with ⟨vs, hvs, h⟩
    injection h with h2
    rw [← h2, List.map_cons, getD_of_mem 0 (listGet_ok.mp hv), ih hvs]

theorem selectE_error {site : ℕ} {arr : List ℚ} {ks : List ℕ} {e : Failure}
    (h : selectE site arr ks = Except.error e) : e = Failure.indexError site := by
  induction ks with
  | nil => rw [selectE] at h; exact absurd h (by simp)
  | cons k ks ih =>
    rw [selectE, except_bind_error] at h
    rcases h with h | ⟨v, _, h⟩
    · exact listGet_error h
    · rw [except_bind_error] at h
      rcases h with h | ⟨vs, _, h⟩
      · exact ih h
      · exact absurd h (by simp)

theorem selectRow_ok {env : ScriptEnv} {j : ℕ} {t : List ℚ × List ℚ × List ℚ}
    (h : selectRow env (ordCol env) j = Except.ok t) : t = canonicalSel env j := by
  rw [selectRow, except_bind_ok] at h
  rcases h with ⟨x, hx, h⟩
  rw [except_bind_ok] at h
  rcases h with ⟨xs, hxs, h⟩
  rw [except_bind_ok] at h
  rcases h with ⟨y, hy, h⟩
  rw [except_bind_ok] at h
  rcases h with ⟨ys, hys, h⟩
  rw [except_bind_ok] at h
  rcases h with ⟨z, hz, h⟩
  rw [except_bind_ok] at h
  rcases h with ⟨zs, hzs, h⟩
  injection h with h2
  rw [canonicalSel, ← h2, selectE_ok hxs, selectE_ok hys, selectE_ok hzs,
    getD_of_mem [] (listGet_ok.mp hx), getD_of_mem [] (listGet_ok.mp hy),
    getD_of_mem [] (listGet_ok.mp hz)]

theorem selectRow_error {env : ScriptEnv} {ord : List ℕ} {j : ℕ} {e : Failure}
    (h : selectRow env ord j = Except.error e) : ∃ s, e = Failure.indexError s := by
  rw [selectRow, except_bind_error] at h
  rcases h with h | ⟨x, _, h⟩
  · exact ⟨343, listGet_error h⟩
  rw [except_bind_error] at h
  rcases h with h | ⟨xs, _, h⟩
  · exact ⟨343, selectE_error h⟩
  rw [except_bind_error] at h
  rcases h with h | ⟨y, _, h⟩
  · exact ⟨344, listGet_error h⟩
  rw [except_bind_error] at h
  rcases h with h | ⟨ys, _, h⟩
  · exact ⟨344, selectE_error h⟩
  rw [except_bind_error] at h
  rcases h with h | ⟨z, _, h⟩
  · exact ⟨345, listGet_error h⟩
  rw [except_bind_error] at h
  rcases h with h | ⟨zs, _, h⟩
  · exact ⟨345, selectE_error h⟩
  · exact absurd h (by simp)

theorem selectPhase_ok {env : ScriptEnv} {sel : List (List ℚ × List ℚ × List ℚ)}
    (h : selectPhase env = Except.ok sel) :
    sel = (List.range env.dX_dp.length).map (canonicalSel env) := by
  rw [selectPhase] at h
  exact exMapM_ok_map h fun j _ t ht => selectRow_ok ht

theorem selectPhase_error {env : ScriptEnv} {e : Failure}
    (h : selectPhase env = Except.error e) : ∃ s, e = Failure.indexError s := by
  rw [selectPhase] at h
  rcases exMapM_error h with ⟨j, _, hj⟩
  exact selectRow_error hj

theorem printBody_error {env : ScriptEnv} {sel : List (List ℚ × List ℚ × List ℚ)}
    {i : ℕ} {e : Failure} (h : printBody env sel i = Except.error e) :
    e = Failure.indexError 349 := by
  rw [printBody, except_bind_error] at h
  rcases h with h | ⟨_, _, h⟩
  · exact listGet_error h
  rw [except_bind_error] at h
  rcases h with h | ⟨_, _, h⟩
  · exact listGet_error h
  rw [except_bind_error] at h
  rcases h with h | ⟨_, _, h⟩
  · exact listGet_error h
  rw [except_bind_error] at h
  rcases h with h | ⟨_, _, h⟩
  · exact listGet_error h
  rw [except_bind_error] at h
  rcases h with h | ⟨_, _, h⟩
  · exact listGet_error h
  rw [except_bind_error] at h
  rcases h with h | ⟨_, _, h⟩
  · exact listGet_error h
  rw [except_bind_error] at h
  rcases h with h | ⟨_, _, h⟩
  · exact listGet_error h
  · exact absurd h (by simp)

theorem printPhase_error {env : ScriptEnv} {sel : List (List ℚ × List ℚ × List ℚ)}
    {e : Failure} (h : printPhase env sel = Except.error e) :
    e = Failure.indexError 349 := by
  rw [printPhase] at h
  rcases exForM_error h with ⟨i, _, hi⟩
  exact printBody_error hi

theorem testBody_ok_vals {env : ScriptEnv} {sel : List (List ℚ × List ℚ × List ℚ)}
    {i j : ℕ} (hsel : sel = (List.range env.dX_dp.length).map (canonicalSel env))
    (hi : i < (sortedNewRows env).length) (hj : j < env.dX_dp.length)
    (h : testBody env sel i j = Except.ok ()) :
    approx_equal (gXs env j i) (oldGrad env i j).1 ∧
    approx_equal (gYs env j i) (oldGrad env i j).2.1 ∧
    approx_equal (gPhis env j i) (oldGrad env i j).2.2 := by
  rw [testBody, except_bind_ok] at h
  rcases h with ⟨tj, htj, h⟩
  have htj2 : tj = canonicalSel env j := by
    have h2 := listGet_ok.mp htj
    rw [hsel, List.getElem?_map, List.getElem?_range hj, Option.map_some'] at h2
    exact (Option.some.inj h2).symm
  subst htj2
  rw [except_bind_ok] at h
  rcases h with ⟨xji, hxji, h⟩
  have hxji2 : xji = gXs env j i := by
    have h2 := listGet_ok.mp hxji
    rw [canonical_fst_getElem? j hi] at h2
    exact (Option.some.inj h2).symm
  rw [except_bind_ok] at h
  rcases h with ⟨om, hom, h⟩
  have hom2 : (sortedOldRows env).getD i defaultOldRow = om :=
    getD_of_mem defaultOldRow (listGet_ok.mp hom)
  rw [except_bind_ok] at h
  rcases h with ⟨g, hg, h⟩
  have hg2 : g = oldGrad env i j := by
    rw [oldGrad, hom2]
    exact (getD_of_mem (0, 0, 0) (listGet_ok.mp hg)).symm
  by_cases c1 : approx_equal xji g.1
  case neg => rw [if_neg c1] at h; exact absurd h (by simp)
  rw [if_pos c1, except_bind_ok] at h
  rcases h with ⟨yji, hyji, h⟩
  have hyji2 : yji = gYs env j i := by
    have h2 := listGet_ok.mp hyji
    rw [canonical_snd_getElem? j hi] at h2
    exact (Option.some.inj h2).symm
  by_cases c2 : approx_equal yji g.2.1
  case neg => rw [if_neg c2] at h; exact absurd h (by simp)
  rw [if_pos c2, except_bind_ok] at h
  rcases h with ⟨zji, hzji, h⟩
  have hzji2 : zji = gPhis env j i := by
    have h2 := listGet_ok.mp hzji
    rw [canonical_thd_getElem? j hi] at h2
    exact (Option.some.inj h2).symm
  by_cases c3 : approx_equal zji g.2.2
  case neg => rw [if_neg c3] at h; exact absurd h (by simp)
  rw [← hxji2, ← hyji2, ← hzji2, ← hg2]
  exact ⟨c1, c2, c3⟩

theorem testBody_error_vals {env : ScriptEnv} {sel : List (List ℚ × List ℚ × List ℚ)}
    {i j s : ℕ} (hsel : sel = (List.range env.dX_dp.length).map (canonicalSel env))
    (hi : i < (sortedNewRows env).length) (hj : j < env.dX_dp.length)
    (h : testBody env sel i j = Except.error (Failure.assertionError s)) :
    ¬ (approx_equal (gXs env j i) (oldGrad env i j).1 ∧
       approx_equal (gYs env j i) (oldGrad env i j).2.1 ∧
       approx_equal (gPhis env j i) (oldGrad env i j).2.2) := by
  rw [testBody, except_bind_error] at h
  rcases h with h | ⟨tj, htj, h⟩
  · exact absurd (listGet_error h) (by simp)
  have htj2 : tj = canonicalSel env j := by
    have h2 := listGet_ok.mp htj
    rw [hsel, List.getElem?_map, List.getElem?_range hj, Option.map_some'] at h2
    exact (Option.some.inj h2).symm
  subst htj2
  rw [except_bind_error] at h
  rcases h with h | ⟨xji, hxji, h⟩
  · exact absurd (listGet_error h) (by simp)
  have hxji2 : xji = gXs env j i := by
    have h2 := listGet_ok.mp hxji
    rw [canonical_fst_getElem? j hi] at h2
    exact (Option.some.inj h2).symm
  rw [except_bind_error] at h
  rcases h with h | ⟨om, hom, h⟩
  · exact absurd (listGet_error h) (by simp)
  have hom2 : (sortedOldRows env).getD i defaultOldRow = om :=
    getD_of_mem defaultOldRow (listGet_ok.mp hom)
  rw [except_bind_error] at h
  rcases h with h | ⟨g, hg, h⟩
  · exact absurd (listGet_error h) (by simp)
  have hg2 : g = oldGrad env i j := by
    rw [oldGrad, hom2]
    exact (getD_of_mem (0, 0, 0) (listGet_ok.mp hg)).symm
  by_cases c1 : approx_equal xji g.1
  · rw [if_pos c1, except_bind_error] at h
    rcases h with h | ⟨yji, hyji, h⟩
    · exact absurd (listGet_error h) (by simp)
    have hyji2 : yji = gYs env j i := by
      have h2 := listGet_ok.mp hyji
      rw [canonical_snd_getElem? j hi] at h2
      exact (Option.some.inj h2).symm
    by_cases c2 : approx_equal yji g.2.1
    · rw [if_pos c2, except_bind_error] at h
      rcases h with h | ⟨zji, hzji, h⟩
      · exact absurd (listGet_error h) (by simp)
      have hzji2 : zji = gPhis env j i := by
        have h2 := listGet_ok.mp hzji
        rw [canonical_thd_getElem? j hi] at h2
        exact (Option.some.inj h2).symm
      by_cases c3 : approx_equal zji g.2.2
      · rw [if_pos c3] at h; exact absurd h (by simp)
      · intro hc
        exact c3 (by rw [hzji2, hg2]; exact hc.2.2)
    · intro hc
      exact c2 (by rw [hyji2, hg2]; exact hc.2.1)
  · intro hc
    exact c1 (by rw [hxji2, hg2]; exact hc.1)

theorem testPhase_ok_vals {env : ScriptEnv} {sel : List (List ℚ × List ℚ × List ℚ)}
    (hsel : sel = (List.range env.dX_dp.length).map (canonicalSel env))
    (h : testPhase env sel = Except.ok ()) : GradChecks env := by
  intro i j hi hj
  rw [testPhase] at h
  have h2 := exForM_ok.mp h i (List.mem_range.mpr hi)
  have h3 := exForM_ok.mp h2 j (List.mem_range.mpr hj)
  exact testBody_ok_vals hsel hi hj h3

theorem testPhase_error_vals {env : ScriptEnv} {sel : List (List ℚ × List ℚ × List ℚ)}
    {s : ℕ} (hsel : sel = (List.range env.dX_dp.length).map (canonicalSel env))
    (h : testPhase env sel = Except.error (Failure.assertionError s)) :
    ¬ GradChecks env := by
  rw [testPhase] at h
  rcases exForM_error h with ⟨i, himem, hi⟩
  rcases exForM_error hi with ⟨j, hjmem, hj⟩
  intro hg
  have hi2 := List.mem_range.mp himem
  have hj2 := List.mem_range.mp hjmem
  exact testBody_error_vals hsel hi2 hj2 hj (hg i j hi2 hj2)

/-! ## Inversion of stage 1 and the whole run -/

theorem stage1_ok_early {env : ScriptEnv} (h : stage1 env = Except.ok ()) :
    EarlyChecks env := by
  rw [stage1] at h
  by_cases h1 : env.sweep_range = ((0 : ℚ), env.piVal)
  · rw [if_pos h1] at h
    by_cases h2 : approx_equal env.im_width (0.1 * env.piVal / 180)
    · rw [if_pos h2] at h
      by_cases h3 : env.numDetectors = 1
      · exact ⟨h1, h2, h3⟩
      · rw [if_neg h3] at h; exact absurd h (by simp)
    · rw [if_neg h2] at h; exact absurd h (by simp)
  · rw [if_neg h1] at h; exact absurd h (by simp)

theorem stage1_error_vals {env : ScriptEnv} {s : ℕ}
    (h : stage1 env = Except.error (Failure.assertionError s)) : ¬ EarlyChecks env := by
  rw [stage1] at h
  by_cases h1 : env.sweep_range = ((0 : ℚ), env.piVal)
  · rw [if_pos h1] at h
    by_cases h2 : approx_equal env.im_width (0.1 * env.piVal / 180)
    · rw [if_pos h2] at h
      by_cases h3 : env.numDetectors = 1
      · rw [if_pos h3] at h
        rw [except_bind_error] at h
        rcases h with h | ⟨_, _, h⟩
        · exact absurd (listGet_error h) (by simp)
        rw [except_bind_error] at h
        rcases h with h | ⟨_, _, h⟩
        · exact absurd (listGet_error h) (by simp)
        rw [except_bind_error] at h
        rcases h with h | ⟨_, _, h⟩
        · exact absurd (listGet_error h) (by simp)
        · exact absurd h (by simp)
      · exact fun he => h3 he.2.2
    · exact fun he => h2 he.2.1
  · exact fun he => h1 he.1

theorem stage1_ok_of {env : ScriptEnv}
    (h1 : env.sweep_range = ((0 : ℚ), env.piVal))
    (h2 : approx_equal env.im_width (0.1 * env.piVal / 180))
    (h3 : env.numDetectors = 1)
    (h4 : env.dX_dp ≠ []) (h5 : env.dY_dp ≠ []) (h6 : env.dPhi_dp ≠ []) :
    stage1 env = Except.ok () := by
  rw [stage1, if_pos h1, if_pos h2, if_pos h3]
  simp only [listGet_ok_getD 309 ([] : List ℚ) (List.length_pos.mpr h4),
    listGet_ok_getD 310 ([] : List ℚ) (List.length_pos.mpr h5),
    listGet_ok_getD 311 ([] : List ℚ) (List.length_pos.mpr h6)]
  rfl

theorem scriptRun_ok_checks {env : ScriptEnv}
    (h : scriptRun env = Except.ok okMsg) : Checks env := by
  rw [scriptRun, except_bind_ok] at h
  rcases h with ⟨u, hu, h⟩
  cases u
  rw [scriptTail, except_bind_ok] at h
  rcases h with ⟨sel, hsel, h⟩
  rw [except_bind_ok] at h
  rcases h with ⟨v, _, h⟩
  rw [except_bind_ok] at h
  rcases h with ⟨w, hw, _⟩
  cases w
  exact ⟨stage1_ok_early hu, testPhase_ok_vals (selectPhase_ok hsel) hw⟩

theorem scriptRun_ok_msg {env : ScriptEnv} {v : String}
    (h : scriptRun env = Except.ok v) : v = okMsg := by
  rw [scriptRun, except_bind_ok] at h
  rcases h with ⟨u, _, h⟩
  rw [scriptTail, except_bind_ok] at h
  rcases h with ⟨sel, _, h⟩
  rw [except_bind_ok] at h
  rcases h with ⟨_, _, h⟩
  rw [except_bind_ok] at h
  rcases h with ⟨_, _, h⟩
  exact (Except.ok.inj h).symm

theorem scriptRun_assert_not_checks {env : ScriptEnv} {s : ℕ}
    (h : scriptRun env = Except.error (Failure.assertionError s)) : ¬ Checks env := by
  rw [scriptRun, except_bind_error] at h
  rcases h with h | ⟨u, hu, h⟩
  · exact fun hc => stage1_error_vals h hc.1
  rw [scriptTail, except_bind_error] at h
  rcases h with h | ⟨sel, hsel, h⟩
  · rcases selectPhase_error h with ⟨s2, hs2⟩
    exact absurd hs2 (by simp)
  rw [except_bind_error] at h
  rcases h with h | ⟨v, _, h⟩
  · exact absurd (printPhase_error h) (by simp)
  rw [except_bind_error] at h
  rcases h with h | ⟨w, _, h⟩
  · exact fun hc => testPhase_error_vals (selectPhase_ok hsel) h hc.2
  · exact absurd h (by simp)

theorem scriptRun_ok_of_checks {env : ScriptEnv} (hc : Checks env)
    (hnoidx : ∀ s, scriptRun env ≠ Except.error (Failure.indexError s)) :
    scriptRun env = Except.ok okMsg := by
  cases h : scriptRun env with
  | ok v =>
    have hv := scriptRun_ok_msg h
    rw [← hv]
  | error f =>
    cases f with
    | assertionError s => exact absurd hc (scriptRun_assert_not_checks h)
    | indexError s => exact absurd h (hnoidx s)

/-! ## Claims C1, C2, C5 and C6 -/

/-- Claim C1: for every matched reflection index `i` and every parameter index
`j`, the gradient components computed by the new pipeline equal those computed by
the old pipeline within the approx_equal tolerance, after both result sets are
ordered by the x_resid key: whenever the script runs to its final "OK", every
compared pair of sorted gradient components satisfies approx_equal. -/
theorem C1_gradient_agreement (env : ScriptEnv) (i j : ℕ)
    (hok : scriptRun env = Except.ok okMsg)
    (hi : i < (sortedNewRows env).length) (hj : j < env.dX_dp.length) :
    approx_equal (gXs env j i) (oldGrad env i j).1 ∧
    approx_equal (gYs env j i) (oldGrad env i j).2.1 ∧
    approx_equal (gPhis env j i) (oldGrad env i j).2.2 :=
  (scriptRun_ok_checks hok).2 i j hi hj

/-- Claim C2 (amended): a raised assertion occurs exactly when some checked
condition fails, and success prints "OK"; but the script can also fail with an
out-of-range access even though every checked condition holds, so "fails if and
only if some checked condition fails" holds only in the absence of index errors. -/
theorem C2_failure_iff_check_failure (env : ScriptEnv) :
    (scriptRun env = Except.ok okMsg → Checks env) ∧
    (∀ s, scriptRun env = Except.error (Failure.assertionError s) → ¬ Checks env) ∧
    (Checks env → (∀ s, scriptRun env ≠ Except.error (Failure.indexError s)) →
      scriptRun env = Except.ok okMsg) :=
  ⟨fun h => scriptRun_ok_checks h,
   fun _ h => scriptRun_assert_not_checks h,
   fun hc hno => scriptRun_ok_of_checks hc hno⟩

/-- Witness for C2's amended theorem at a concrete environment. -/
theorem C2_failure_iff_check_failure_witness :
    (scriptRun okEnv = Except.ok okMsg → Checks okEnv) ∧
    (∀ s, scriptRun okEnv = Except.error (Failure.assertionError s) → ¬ Checks okEnv) ∧
    (Checks okEnv → (∀ s, scriptRun okEnv ≠ Except.error (Failure.indexError s)) →
      scriptRun okEnv = Except.ok okMsg) :=
  C2_failure_iff_check_failure okEnv

/-- Claim C5: the script never asserts equality of the two match counts: the part
of the run that produces and prints both counts (everything up to line 336)
imposes no condition relating the counts, so it succeeds for every pair of counts
— in particular for differing ones — as soon as the three early assertions hold
and the gradient lists are nonempty. -/
theorem C5_counts_only_printed (env : ScriptEnv)
    (h1 : env.sweep_range = ((0 : ℚ), env.piVal))
    (h2 : approx_equal env.im_width (0.1 * env.piVal / 180))
    (h3 : env.numDetectors = 1)
    (h4 : env.dX_dp ≠ []) (h5 : env.dY_dp ≠ []) (h6 : env.dPhi_dp ≠ []) :
    stage1 env = Except.ok () :=
  stage1_ok_of h1 h2 h3 h4 h5 h6

/-- Witness for C5: an environment whose two managers return different counts
(one match against zero) passes the count-producing part of the run. -/
theorem C5_counts_only_printed_witness :
    diffCountEnv.new_matches.length ≠ diffCountEnv.old_matches.length ∧
    stage1 diffCountEnv = Except.ok () := by
  refine ⟨by norm_num [diffCountEnv], ?_⟩
  exact C5_counts_only_printed diffCountEnv rfl
    (by norm_num [approx_equal, diffCountEnv]) rfl (by norm_num [diffCountEnv])
    (by norm_num [diffCountEnv]) (by norm_num [diffCountEnv])

/-- Claim C6: before the pairwise comparison, both result sets are sorted
ascending by the x residual, the `order` column assigns each new-match row its
original position, the sorted table is a permutation of the order-annotated
table, each of its rows points back (through `order`) to the original row with
its x residual, and row `i` of each gradient array permuted by the sorted order
column is exactly the gradient of the reflection sorted into row `i`. -/
theorem C6_sort_and_permute (env : ScriptEnv) (i j : ℕ)
    (hi : i < (sortedNewRows env).length) (hj : j < env.dX_dp.length) :
    List.Sorted leNewRow (sortedNewRows env) ∧
    List.Sorted leOldRow (sortedOldRows env) ∧
    (sortedNewRows env).Perm (withOrder env.new_matches) ∧
    ((withOrder env.new_matches).getD i defaultTRow).order = i ∧
    ((withOrder env.new_matches).getD i defaultTRow).x_resid =
      (env.new_matches.getD i defaultNewRow).x_resid ∧
    ((sortedNewRows env).getD i defaultTRow).order < env.new_matches.length ∧
    ((sortedNewRows env).getD i defaultTRow).x_resid =
      (env.new_matches.getD ((sortedNewRows env).getD i defaultTRow).order
        defaultNewRow).x_resid ∧
    (canonicalSel env j).1.getD i 0 = gXs env j i ∧
    (canonicalSel env j).2.1.getD i 0 = gYs env j i ∧
    (canonicalSel env j).2.2.getD i 0 = gPhis env j i ∧
    (canonicalSel env j).1.length = (sortedNewRows env).length := by
  have hi0 : i < env.new_matches.length := by
    rw [← length_sortedNewRows env]; exact hi
  have hw := withOrder_getElem? env.new_matches hi0
  refine ⟨List.sorted_insertionSort leNewRow (withOrder env.new_matches),
    List.sorted_insertionSort leOldRow env.old_matches,
    List.perm_insertionSort leNewRow (withOrder env.new_matches),
    ?_, ?_, (sortedNewRows_order_points_back env hi).1,
    (sortedNewRows_order_points_back env hi).2,
    getD_of_mem 0 (canonical_fst_getElem? j hi),
    getD_of_mem 0 (canonical_snd_getElem? j hi),
    getD_of_mem 0 (canonical_thd_getElem? j hi), ?_⟩
  · rw [getD_of_mem defaultTRow hw]
  · rw [getD_of_mem defaultTRow hw]
  · show ((ordCol env).map fun k => (env.dX_dp.getD j []).getD k 0).length = _
    simp [ordCol]

/-- Witness for C6 at a concrete environment. -/
theorem C6_sort_and_permute_witness :
    0 < (sortedNewRows okEnv).length ∧ 0 < okEnv.dX_dp.length ∧
    List.Sorted leNewRow (sortedNewRows okEnv) := by
  have hi : 0 < (sortedNewRows okEnv).length := by
    rw [length_sortedNewRows]
    norm_num [okEnv, tenNewRows]
  have hj : 0 < okEnv.dX_dp.length := by norm_num [okEnv]
  exact ⟨hi, hj, (C6_sort_and_permute okEnv 0 0 hi hj).1⟩

theorem getD_replicate_zero (n k : ℕ) : (List.replicate n (0 : ℚ)).getD k 0 = 0 := by
  rcases h : (List.replicate n (0 : ℚ))[k]? with _ | a
  · rw [List.getD_eq_getElem?_getD, h]; rfl
  · rw [List.getD_eq_getElem?_getD, h]
    exact List.eq_of_mem_replicate (List.getElem?_mem h)

/-- Witness for C1: a concrete environment on which the script runs to its final
"OK", checked by evaluation. -/
theorem C1_gradient_agreement_witness :
    scriptRun okEnv = Except.ok okMsg ∧
    0 < (sortedNewRows okEnv).length ∧ 0 < okEnv.dX_dp.length ∧
    (approx_equal (gXs okEnv 0 0) (oldGrad okEnv 0 0).1 ∧
     approx_equal (gYs okEnv 0 0) (oldGrad okEnv 0 0).2.1 ∧
     approx_equal (gPhis okEnv 0 0) (oldGrad okEnv 0 0).2.2) := by
  have hok : scriptRun okEnv = Except.ok okMsg := by
    norm_num [scriptRun, stage1, scriptTail, selectPhase, selectRow, selectE, exMapM,
      exForM, printPhase, printBody, testPhase, testBody, listGet, okEnv, tenNewRows,
      tenOldRows, withOrder, withOrderFrom, sortedNewRows, sortedOldRows, ordCol,
      leNewRow, leOldRow, approx_equal, List.insertionSort, List.orderedInsert,
      List.range_succ, List.replicate, Except.bind]
  have hi : 0 < (sortedNewRows okEnv).length := by
    rw [length_sortedNewRows]
    norm_num [okEnv, tenNewRows]
  have hj : 0 < okEnv.dX_dp.length := by norm_num [okEnv]
  exact ⟨hok, hi, hj, C1_gradient_agreement okEnv 0 0 hok hi hj⟩

/-- Counterexample to claim C2 as stated: on `exEnv` every condition checked by an
assert holds (the early checks by construction, the gradient checks vacuously
against the default values of the empty old match list), yet the script
terminates with a failure signal: the old manager returned no matches, so the
debug print of line 349 reads `old_matches[0]` out of range (an IndexError, not a
raised assertion), and "OK" is never printed. -/
theorem C2_counterexample :
    Checks exEnv ∧ scriptRun exEnv = Except.error (Failure.indexError 349) ∧
    scriptRun exEnv ≠ Except.ok okMsg := by
  have hrun : scriptRun exEnv = Except.error (Failure.indexError 349) := by
    norm_num [scriptRun, stage1, scriptTail, selectPhase, selectRow, selectE, exMapM,
      exForM, printPhase, printBody, testPhase, testBody, listGet, exEnv, tenNewRows,
      withOrder, withOrderFrom, sortedNewRows, sortedOldRows, ordCol, leNewRow,
      leOldRow, approx_equal, List.insertionSort, List.orderedInsert, List.range_succ,
      List.replicate, Except.bind]
  have hgrad : GradChecks exEnv := by
    intro i j hi hj
    have hj0 : j = 0 := by
      have hlen : exEnv.dX_dp.length = 1 := rfl
      omega
    subst hj0
    have hx : gXs exEnv 0 i = 0 := by
      have h2 : gXs exEnv 0 i
          = (List.replicate 10 (0 : ℚ)).getD
              (((sortedNewRows exEnv).getD i defaultTRow).order) 0 := rfl
      rw [h2, getD_replicate_zero]
    have hy : gYs exEnv 0 i = 0 := by
      have h2 : gYs exEnv 0 i
          = (List.replicate 10 (0 : ℚ)).getD
              (((sortedNewRows exEnv).getD i defaultTRow).order) 0 := rfl
      rw [h2, getD_replicate_zero]
    have hz : gPhis exEnv 0 i = 0 := by
      have h2 : gPhis exEnv 0 i
          = (List.replicate 10 (0 : ℚ)).getD
              (((sortedNewRows exEnv).getD i defaultTRow).order) 0 := rfl
      rw [h2, getD_replicate_zero]
    have ho : oldGrad exEnv i 0 = (0, 0, 0) := rfl
    rw [hx, hy, hz, ho]
    norm_num [approx_equal]
  have hearly : EarlyChecks exEnv := by
    refine ⟨rfl, ?_, rfl⟩
    norm_num [approx_equal, exEnv]
  exact ⟨⟨hearly, hgrad⟩, hrun, by rw [hrun]; simp⟩

end TstRefman
